import Mathlib

/-!
Verification of the invoice mutation/validation core of the dashboard
application (`src/app/lib/actions.ts`).

The embedding models:
- the form-data surface (`FormData.get` returns the field string or null);
- the zod schema `InvoiceFormSchema` restricted to the three fields the
  handlers extract (`customerId`, `amount`, `status`), with the documented
  zod issue/message semantics: `z.string({invalid_type_error})` accepts every
  string (including the empty one) and reports the custom message only on a
  non-string input; `z.coerce.number()` applies JavaScript `Number(...)`
  coercion and rejects NaN with the default invalid-type message; `.gt(0)`
  reports the custom too-small message; `z.enum([...], {invalid_type_error})`
  reports the custom message only on a non-string input, and the default
  invalid-enum-value message on a string outside the set;
- JavaScript numeric coercion on the decimal fragment (`Number(null) = 0`,
  `Number("") = 0` after trimming, decimal literals with optional sign and
  fraction, anything else NaN) over exact rationals, and `Math.round`
  (half toward positive infinity);
- the three mutation handlers and the authentication handler as functions of
  the incoming form, an explicit database state (a list of rows), an explicit
  success/failure bit for the single SQL statement each handler issues, and
  the server-assigned date/id; each returns its outcome, the new database
  state, and the ordered list of side effects it performed.
-/

/-- A JavaScript number restricted to the values arising here: an exact
rational or NaN. -/
inductive JsNum where
  | num (q : ℚ)
  | nan
deriving DecidableEq, Repr

/-- Value of a run of decimal digit characters. -/
def digitsVal (cs : List Char) : ℕ :=
  cs.foldl (fun a c => 10 * a + (c.toNat - 48)) 0

/-- JavaScript `Number(...)` on an unsigned body: a digit run, optionally
split by a single decimal point (`"12"`, `"12.34"`, `"12."`, `".5"`);
anything else is NaN (`none`). -/
def jsUnsignedVal (cs : List Char) : Option ℚ :=
  match cs.splitOn '.' with
  | [d] =>
      if d ≠ [] ∧ d.all Char.isDigit then some (digitsVal d) else none
  | [i, f] =>
      if (i ≠ [] ∨ f ≠ []) ∧ i.all Char.isDigit ∧ f.all Char.isDigit then
        some ((digitsVal i : ℚ) + (digitsVal f : ℚ) / (10 ^ f.length : ℕ))
      else none
  | _ => none

/-- Whitespace trimming of both ends, over the character list. -/
def trimWs (cs : List Char) : List Char :=
  ((cs.dropWhile Char.isWhitespace).reverse.dropWhile Char.isWhitespace).reverse

/-- JavaScript `Number(s)` for a string: trimmed; empty means 0; an optional
sign followed by a decimal body; otherwise NaN. (The exponent/hex/Infinity
forms never arise from the invoice form and are outside this fragment.) -/
def jsStringToNum (s : String) : JsNum :=
  match trimWs s.toList with
  | [] => .num 0
  | '-' :: r =>
      match jsUnsignedVal r with
      | some q => .num (-q)
      | none => .nan
  | '+' :: r =>
      match jsUnsignedVal r with
      | some q => .num q
      | none => .nan
  | r =>
      match jsUnsignedVal r with
      | some q => .num q
      | none => .nan

/-- JavaScript `Number(v)` for a form value: `Number(null) = 0`. -/
def jsNumber (v : Option String) : JsNum :=
  match v with
  | none => .num 0
  | some s => jsStringToNum s

/-- JavaScript `Math.round`: half rounds toward positive infinity. -/
def jsRound (q : ℚ) : ℤ := ⌊q + 1 / 2⌋

/-- The form-submission surface: `get` returns the submitted string for a
field name, or null (`none`) when the field is absent. -/
structure FormData where
  get : String → Option String

/-- The invoice status enum of the schema. -/
inductive Status where
  | pending
  | paid
deriving DecidableEq, Repr

/-- String sent by the form for a status, used when matching the enum. -/
def Status.toStr : Status → String
  | .pending => "pending"
  | .paid => "paid"

/-- Parsed data produced by a successful `safeParse` of the create/update
schema (the `id`/`date` fields are omitted by both handlers). -/
structure InvoiceData where
  customerId : String
  amount : ℚ
  status : Status
deriving DecidableEq, Repr

/-- Shape of `error.flatten().fieldErrors`: per-field lists of messages. -/
structure FieldErrors where
  customerId : List String
  amount : List String
  status : List String
deriving DecidableEq, Repr

def msgCustomer : String := "Please select a customer."

def msgAmount : String := "Please enter an amount greater than $0."

def msgStatus : String := "Please select an invoice status"

/-- Default zod invalid-type message for a NaN-coerced number. -/
def msgNan : String := "Expected number, received nan"

/-- Default zod invalid-enum-value message for a string outside the enum;
the custom `invalid_type_error` applies only to invalid-type issues, not to
this one. -/
def msgEnum (received : String) : String :=
  "Invalid enum value. Expected \x27pending\x27 | \x27paid\x27, received \x27"
    ++ received ++ "\x27"

/-- `z.string({ invalid_type_error: msgCustomer })` applied to a form value:
any string (the empty one included) passes; null is an invalid-type issue
carrying the custom message. -/
def parseCustomerId (v : Option String) : Except (List String) String :=
  match v with
  | some s => .ok s
  | none => .error [msgCustomer]

/-- `z.coerce.number().gt(0, { message: msgAmount })` applied to a form
value: coerce with `Number(...)`; NaN is an invalid-type issue with the
default message; a number must then be strictly greater than 0. -/
def parseAmount (v : Option String) : Except (List String) ℚ :=
  match jsNumber v with
  | .nan => .error [msgNan]
  | .num q => if 0 < q then .ok q else .error [msgAmount]

/-- `z.enum(["pending","paid"], { invalid_type_error: msgStatus })` applied
to a form value: null is an invalid-type issue with the custom message; a
string outside the enum is an invalid-enum-value issue with the default
message. -/
def parseStatus (v : Option String) : Except (List String) Status :=
  match v with
  | none => .error [msgStatus]
  | some s =>
      if s = "pending" then .ok .pending
      else if s = "paid" then .ok .paid
      else .error [msgEnum s]

/-- Result of `safeParse`: parsed data, or the flattened field errors. -/
inductive ParseResult where
  | ok (data : InvoiceData)
  | err (errors : FieldErrors)
deriving DecidableEq, Repr

/-- Error list of a field check (empty when the field passed). -/
def errList {α : Type} : Except (List String) α → List String
  | .error e => e
  | .ok _ => []

/-- `CreateInvoice.safeParse` (= `UpdateInvoice.safeParse`) on the three
extracted form values: all field checks run and every issue is collected,
then flattened per field. -/
def invoiceSafeParse (customerId amount status : Option String) : ParseResult :=
  match parseCustomerId customerId, parseAmount amount, parseStatus status with
  | .ok c, .ok a, .ok s => .ok ⟨c, a, s⟩
  | rc, ra, rs => .err ⟨errList rc, errList ra, errList rs⟩

/-- A stored invoice row (`invoices(id, customer_id, amount, status, date)`).
The amount column holds exactly the value the handler passed to the SQL
statement (a rational, since `createInvoice` performs no rounding). -/
structure Invoice where
  id : String
  customer_id : String
  amount : ℚ
  status : Status
  date : String
deriving DecidableEq, Repr

/-- The database: the list of invoice rows. -/
abbrev Db := List Invoice

/-- The `ActionState` result object of a mutation handler. -/
structure ActionState where
  message : Option String
  errors : Option FieldErrors
deriving DecidableEq, Repr

/-- How a handler invocation ends: a normal return of an `ActionState`, or
the control-flow exit thrown by `redirect(path)`. -/
inductive ActionOutcome where
  | returned (st : ActionState)
  | redirected (path : String)
deriving DecidableEq, Repr

/-- Side effects a handler performs, in program order. -/
inductive Effect where
  | dbWrite
  | logged
  | revalidate (path : String)
  | redirectTo (path : String)
deriving DecidableEq, Repr

def invoicesPath : String := "/dashboard/invoices"

/-- `createInvoice(prevState, formData)`: validate; on failure return the
errors without touching storage. On success compute
`amountInCents = data.amount * 100` (no rounding in the source) and the
server date, and issue the insert; `dbOk` says whether that single SQL
statement succeeds. On SQL failure log and return the database-error
message; on success revalidate the listing path and then redirect to it. -/
def createInvoice (_prevState : ActionState) (formData : FormData)
    (dbOk : Bool) (db : Db) (today newId : String) :
    ActionOutcome × Db × List Effect :=
  match invoiceSafeParse (formData.get "customerId") (formData.get "amount")
      (formData.get "status") with
  | .err e =>
      (.returned ⟨some "Missing Fields. Failed to Create Invoice.", some e⟩,
        db, [])
  | .ok data =>
      let amountInCents : ℚ := data.amount * 100
      let date := today
      if dbOk then
        (.redirected invoicesPath,
          db ++ [⟨newId, data.customerId, amountInCents, data.status, date⟩],
          [.dbWrite, .revalidate invoicesPath, .redirectTo invoicesPath])
      else
        (.returned ⟨some "Database Error: Failed to Create Invoice.", none⟩,
          db, [.dbWrite, .logged])

/-- `updateInvoice(id, prevState, formData)`: validate; on failure return
the errors without touching storage. On success compute
`amountInCents = Math.round(data.amount * 100)` and issue the update of
customer_id/amount/status for the rows matching `id`; on SQL failure log
and return the database-error message; on success revalidate the listing
path and then redirect to it. -/
def updateInvoice (id : String) (_prevState : ActionState)
    (formData : FormData) (dbOk : Bool) (db : Db) :
    ActionOutcome × Db × List Effect :=
  match invoiceSafeParse (formData.get "customerId") (formData.get "amount")
      (formData.get "status") with
  | .err e =>
      (.returned ⟨some "Missing fields. Failed to update invoice", some e⟩,
        db, [])
  | .ok data =>
      let amountInCents : ℤ := jsRound (data.amount * 100)
      if dbOk then
        (.redirected invoicesPath,
          db.map (fun r =>
            if r.id = id then
              { r with customer_id := data.customerId,
                       amount := (amountInCents : ℚ),
                       status := data.status }
            else r),
          [.dbWrite, .revalidate invoicesPath, .redirectTo invoicesPath])
      else
        (.returned ⟨some "Database Error: Failed to Update Invoice.", none⟩,
          db, [.dbWrite, .logged])

/-- `deleteInvoice(id)`: issue the delete for the rows matching `id`; on
success (also when no row matches) revalidate the listing path and return
the deleted message; on SQL failure log and return the database-error
message (whose string in the source begins with a space). Both branches
return normally: nothing escapes the handler. -/
def deleteInvoice (id : String) (dbOk : Bool) (db : Db) :
    ActionState × Db × List Effect :=
  if dbOk then
    (⟨some "Deleted Invoice.", none⟩,
      db.filter (fun r => r.id ≠ id),
      [.dbWrite, .revalidate "/dashboard/invoices"])
  else
    (⟨some " Database Error: Failed to Delete Invoice", none⟩,
      db, [.dbWrite, .logged])

/-- Outcome of the delegated `signIn("credentials", formData)` call:
success, a thrown `AuthError` carrying its `type`, or any other thrown
error. -/
inductive SignInOutcome where
  | success
  | authError (kind : String)
  | otherError (e : String)
deriving DecidableEq, Repr

/-- `authenticate(prevState, formData)`: on an `AuthError` whose type is
`CredentialsSignin` return the invalid-credentials message, on any other
`AuthError` the generic message; any non-`AuthError` is re-thrown
(`Except.error`); successful sign-in returns nothing (`none`). -/
def authenticate (_prevState : Option String) (signInResult : SignInOutcome) :
    Except String (Option String) :=
  match signInResult with
  | .success => .ok none
  | .authError kind =>
      if kind = "CredentialsSignin" then .ok (some "Invalid credentials.")
      else .ok (some "Something went wrong.")
  | .otherError e => .error e

/-! ## Shared helpers for the theorems -/

/-- An initial previous-state value (the handlers ignore it). -/
def st0 : ActionState := ⟨none, none⟩

/-- A concrete submitted form holding exactly the three invoice fields. -/
def mkForm (c a s : Option String) : FormData :=
  ⟨fun k =>
    if k = "customerId" then c
    else if k = "amount" then a
    else if k = "status" then s
    else none⟩

/-- A concrete submitted form with one additional unrelated field. -/
def mkFormExtra (c a s : Option String) (extraKey extraVal : String) :
    FormData :=
  ⟨fun k => if k = extraKey then some extraVal else (mkForm c a s).get k⟩

/-- When the amount check fails, `safeParse` still runs the other checks and
collects every issue; the flattened errors hold the amount messages. -/
theorem invoiceSafeParse_err_of_amount (c a s : Option String)
    (l : List String) (ha : parseAmount a = .error l) :
    invoiceSafeParse c a s =
      .err ⟨errList (parseCustomerId c), l, errList (parseStatus s)⟩ := by
  unfold invoiceSafeParse
  cases hc : parseCustomerId c <;> cases hs : parseStatus s <;>
    simp [ha, errList]

/-- When the status check fails, `safeParse` still runs the other checks and
collects every issue; the flattened errors hold the status messages. -/
theorem invoiceSafeParse_err_of_status (c a s : Option String)
    (l : List String) (hs : parseStatus s = .error l) :
    invoiceSafeParse c a s =
      .err ⟨errList (parseCustomerId c), errList (parseAmount a), l⟩ := by
  unfold invoiceSafeParse
  cases hc : parseCustomerId c <;> cases ha : parseAmount a <;>
    simp [hs, errList]

/-! ## Claims -/

/-- C3 (counterexample): on storage failure `deleteInvoice` returns the
message `" Database Error: Failed to Delete Invoice"`, whose leading space
makes it differ from the exact string the claim states. -/
theorem c3_counterexample :
    (deleteInvoice "nonexistent" false []).1.message =
      some " Database Error: Failed to Delete Invoice" ∧
    some " Database Error: Failed to Delete Invoice" ≠
      some "Database Error: Failed to Delete Invoice" :=
  ⟨rfl, by decide⟩

/-- C3 (amended): `deleteInvoice` returns normally for every id and both
storage outcomes (the function is total — neither branch throws): on
storage success it returns `{message: "Deleted Invoice."}`, and on storage
failure it returns exactly
`{message: " Database Error: Failed to Delete Invoice"}` (with the leading
space present in the source). -/
theorem c3_deleteInvoice_messages (id : String) (db : Db) :
    (deleteInvoice id true db).1 = ⟨some "Deleted Invoice.", none⟩ ∧
    (deleteInvoice id false db).1 =
      ⟨some " Database Error: Failed to Delete Invoice", none⟩ :=
  ⟨rfl, rfl⟩

/-- C6: `authenticate` maps an `AuthError` of type `CredentialsSignin` to
`"Invalid credentials."`, maps an `AuthError` of any other type to
`"Something went wrong."`, and re-raises every non-`AuthError`. -/
theorem c6_authenticate_mapping (prev : Option String) (kind e : String) :
    authenticate prev (.authError "CredentialsSignin") =
      .ok (some "Invalid credentials.") ∧
    (kind ≠ "CredentialsSignin" →
      authenticate prev (.authError kind) =
        .ok (some "Something went wrong.")) ∧
    authenticate prev (.otherError e) = .error e := by
  refine ⟨rfl, fun h => ?_, rfl⟩
  simp [authenticate, h]

/-- C6 witness: the mapping at a concrete unregistered-credential error, a
concrete non-credentials auth error, and a concrete non-auth error. -/
theorem c6_authenticate_mapping_witness :
    authenticate none (.authError "CredentialsSignin") =
      .ok (some "Invalid credentials.") ∧
    authenticate none (.authError "AccessDenied") =
      .ok (some "Something went wrong.") ∧
    authenticate none (.otherError "boom") = .error "boom" :=
  ⟨(c6_authenticate_mapping none "AccessDenied" "boom").1,
   (c6_authenticate_mapping none "AccessDenied" "boom").2.1 (by decide),
   (c6_authenticate_mapping none "AccessDenied" "boom").2.2⟩

/-- C9: two invocations of `createInvoice` (or of `updateInvoice` with the
same id) whose forms agree on the `customerId`, `amount` and `status` fields
produce identical outcomes — previous state and any other form fields are
irrelevant. -/
theorem c9_handlers_read_only_three_fields (s1 s2 : ActionState)
    (f1 f2 : FormData) (dbOk : Bool) (db : Db) (today newId id : String)
    (hc : f1.get "customerId" = f2.get "customerId")
    (ha : f1.get "amount" = f2.get "amount")
    (hs : f1.get "status" = f2.get "status") :
    createInvoice s1 f1 dbOk db today newId =
      createInvoice s2 f2 dbOk db today newId ∧
    updateInvoice id s1 f1 dbOk db = updateInvoice id s2 f2 dbOk db := by
  unfold createInvoice updateInvoice
  rw [hc, ha, hs]
  exact ⟨rfl, rfl⟩

/-- C9 witness: a form with an extra unrelated field and a different
previous state yields the same outcome as the plain form. -/
theorem c9_handlers_read_only_three_fields_witness :
    createInvoice st0 (mkForm (some "c") (some "5") (some "pending"))
        true [] "2024-01-01" "inv1" =
      createInvoice ⟨some "old", none⟩
        (mkFormExtra (some "c") (some "5") (some "pending") "junk" "x")
        true [] "2024-01-01" "inv1" ∧
    updateInvoice "inv1" st0 (mkForm (some "c") (some "5") (some "pending"))
        true [] =
      updateInvoice "inv1" ⟨some "old", none⟩
        (mkFormExtra (some "c") (some "5") (some "pending") "junk" "x")
        true [] :=
  c9_handlers_read_only_three_fields st0 ⟨some "old", none⟩
    (mkForm (some "c") (some "5") (some "pending"))
    (mkFormExtra (some "c") (some "5") (some "pending") "junk" "x")
    true [] "2024-01-01" "inv1" "inv1" rfl rfl rfl

/-- C2 (counterexample): an empty-string customerId passes `z.string()` —
with valid amount and status the whole validation succeeds, so the create
handler proceeds to the redirect instead of returning field errors. -/
theorem c2_counterexample :
    invoiceSafeParse (some "") (some "5") (some "pending") =
      .ok ⟨"", 5, .pending⟩ ∧
    (createInvoice st0 (mkForm (some "") (some "5") (some "pending"))
        true [] "2024-01-01" "inv1").1 = .redirected invoicesPath :=
  ⟨rfl, rfl⟩

/-- C2 (amended): when the customerId field is missing (`get` returns null)
and amount and status are valid, validation in `createInvoice` and
`updateInvoice` fails, the errors hold exactly `"Please select a customer."`
under customerId, and no other field has errors; an empty-string customerId,
by contrast, passes the customerId check. -/
theorem c2_missing_customer (f : FormData) (stp : ActionState) (dbOk : Bool)
    (db : Db) (today newId id : String) (q : ℚ) (st : Status)
    (hc : f.get "customerId" = none)
    (ha : parseAmount (f.get "amount") = .ok q)
    (hs : parseStatus (f.get "status") = .ok st) :
    invoiceSafeParse (f.get "customerId") (f.get "amount") (f.get "status") =
      .err ⟨[msgCustomer], [], []⟩ ∧
    createInvoice stp f dbOk db today newId =
      (.returned ⟨some "Missing Fields. Failed to Create Invoice.",
          some ⟨[msgCustomer], [], []⟩⟩, db, []) ∧
    updateInvoice id stp f dbOk db =
      (.returned ⟨some "Missing fields. Failed to update invoice",
          some ⟨[msgCustomer], [], []⟩⟩, db, []) ∧
    (∀ s, parseCustomerId (some s) = .ok s) := by
  have hp : invoiceSafeParse (f.get "customerId") (f.get "amount")
      (f.get "status") = .err ⟨[msgCustomer], [], []⟩ := by
    rw [hc]
    unfold invoiceSafeParse
    simp [ha, hs, parseCustomerId, errList]
  refine ⟨hp, ?_, ?_, fun s => rfl⟩ <;> simp [createInvoice, updateInvoice, hp]

/-- C2 witness: the amended statement at the concrete form with customerId
absent, amount `"5"`, status `"pending"`. -/
theorem c2_missing_customer_witness :
    invoiceSafeParse ((mkForm none (some "5") (some "pending")).get
        "customerId")
      ((mkForm none (some "5") (some "pending")).get "amount")
      ((mkForm none (some "5") (some "pending")).get "status") =
      .err ⟨[msgCustomer], [], []⟩ ∧
    createInvoice st0 (mkForm none (some "5") (some "pending"))
        true [] "2024-01-01" "inv1" =
      (.returned ⟨some "Missing Fields. Failed to Create Invoice.",
          some ⟨[msgCustomer], [], []⟩⟩, [], []) ∧
    updateInvoice "inv1" st0 (mkForm none (some "5") (some "pending"))
        true [] =
      (.returned ⟨some "Missing fields. Failed to update invoice",
          some ⟨[msgCustomer], [], []⟩⟩, [], []) ∧
    (∀ s, parseCustomerId (some s) = .ok s) :=
  c2_missing_customer (mkForm none (some "5") (some "pending")) st0 true []
    "2024-01-01" "inv1" "inv1" 5 .pending rfl rfl rfl

/-- C10: an amount field present as the empty string coerces to the number
0, so validation fails with exactly the greater-than-zero message (not a
missing-field or type error). -/
theorem c10_empty_amount (f : FormData) (stp : ActionState) (dbOk : Bool)
    (db : Db) (today newId : String)
    (h : f.get "amount" = some "") :
    jsNumber (f.get "amount") = .num 0 ∧
    invoiceSafeParse (f.get "customerId") (f.get "amount") (f.get "status") =
      .err ⟨errList (parseCustomerId (f.get "customerId")), [msgAmount],
        errList (parseStatus (f.get "status"))⟩ ∧
    (createInvoice stp f dbOk db today newId).1 =
      .returned ⟨some "Missing Fields. Failed to Create Invoice.",
        some ⟨errList (parseCustomerId (f.get "customerId")), [msgAmount],
          errList (parseStatus (f.get "status"))⟩⟩ := by
  have hn : jsNumber (f.get "amount") = .num 0 := by rw [h]; rfl
  have ha : parseAmount (f.get "amount") = .error [msgAmount] := by
    unfold parseAmount
    rw [hn]
    norm_num
  have hp := invoiceSafeParse_err_of_amount (f.get "customerId")
    (f.get "amount") (f.get "status") [msgAmount] ha
  refine ⟨hn, hp, ?_⟩
  simp [createInvoice, hp]

/-- C10 witness: the statement at the concrete form with valid customer and
status and amount `""`; the only field error is the amount message. -/
theorem c10_empty_amount_witness :
    jsNumber ((mkForm (some "c") (some "") (some "pending")).get "amount") =
      .num 0 ∧
    invoiceSafeParse
      ((mkForm (some "c") (some "") (some "pending")).get "customerId")
      ((mkForm (some "c") (some "") (some "pending")).get "amount")
      ((mkForm (some "c") (some "") (some "pending")).get "status") =
      .err ⟨errList (parseCustomerId (some "c")), [msgAmount],
        errList (parseStatus (some "pending"))⟩ ∧
    (createInvoice st0 (mkForm (some "c") (some "") (some "pending"))
        true [] "2024-01-01" "inv1").1 =
      .returned ⟨some "Missing Fields. Failed to Create Invoice.",
        some ⟨errList (parseCustomerId (some "c")), [msgAmount],
          errList (parseStatus (some "pending"))⟩⟩ :=
  c10_empty_amount (mkForm (some "c") (some "") (some "pending")) st0 true
    [] "2024-01-01" "inv1" rfl

/-- C4: for every amount input coercing to NaN (non-numeric) or to a number
at most 0, both handlers return the missing-fields result with a non-empty
errors.amount list, leave the database unchanged, and perform no effect at
all (in particular no storage write). -/
theorem c4_bad_amount_no_write (f : FormData) (stp : ActionState)
    (dbOk : Bool) (db : Db) (today newId id : String)
    (h : jsNumber (f.get "amount") = .nan ∨
      ∃ q, jsNumber (f.get "amount") = .num q ∧ q ≤ 0) :
    (∃ fe, createInvoice stp f dbOk db today newId =
        (.returned ⟨some "Missing Fields. Failed to Create Invoice.",
          some fe⟩, db, []) ∧ fe.amount ≠ []) ∧
    (∃ fe, updateInvoice id stp f dbOk db =
        (.returned ⟨some "Missing fields. Failed to update invoice",
          some fe⟩, db, []) ∧ fe.amount ≠ []) := by
  have ha : ∃ l, parseAmount (f.get "amount") = .error l ∧ l ≠ [] := by
    rcases h with h | ⟨q, hq, hq0⟩
    · refine ⟨[msgNan], ?_, by decide⟩
      unfold parseAmount
      rw [h]
    · refine ⟨[msgAmount], ?_, by decide⟩
      unfold parseAmount
      rw [hq]
      simp [not_lt.mpr hq0]
  obtain ⟨l, ha, hl⟩ := ha
  have hp := invoiceSafeParse_err_of_amount (f.get "customerId")
    (f.get "amount") (f.get "status") l ha
  refine ⟨⟨⟨errList (parseCustomerId (f.get "customerId")), l,
      errList (parseStatus (f.get "status"))⟩, ?_, hl⟩,
    ⟨⟨errList (parseCustomerId (f.get "customerId")), l,
      errList (parseStatus (f.get "status"))⟩, ?_, hl⟩⟩ <;>
    simp [createInvoice, updateInvoice, hp]

/-- C4 witness: the statement at the concrete negative amount `"-5"`. -/
theorem c4_bad_amount_no_write_witness :
    (∃ fe, createInvoice st0 (mkForm (some "c") (some "-5") (some "pending"))
        true [] "2024-01-01" "inv1" =
        (.returned ⟨some "Missing Fields. Failed to Create Invoice.",
          some fe⟩, [], []) ∧ fe.amount ≠ []) ∧
    (∃ fe, updateInvoice "inv1" st0
        (mkForm (some "c") (some "-5") (some "pending")) true [] =
        (.returned ⟨some "Missing fields. Failed to update invoice",
          some fe⟩, [], []) ∧ fe.amount ≠ []) :=
  c4_bad_amount_no_write (mkForm (some "c") (some "-5") (some "pending"))
    st0 true [] "2024-01-01" "inv1" "inv1"
    (Or.inr ⟨-5, rfl, by decide⟩)

/-- C7 (counterexample): a string status outside the set, such as
`"shipped"`, fails with the default invalid-enum-value message, not with
`"Please select an invoice status"`. -/
theorem c7_counterexample :
    parseStatus (some "shipped") = .error [msgEnum "shipped"] ∧
    invoiceSafeParse (some "c") (some "5") (some "shipped") =
      .err ⟨[], [], [msgEnum "shipped"]⟩ ∧
    [msgEnum "shipped"] ≠ [msgStatus] :=
  ⟨rfl, rfl, by decide⟩

/-- C7 (amended): for every status value outside {pending, paid} validation
fails with a populated errors.status list; the message is
`"Please select an invoice status"` exactly when the value is missing (not
a string), while a string outside the set gets the default
invalid-enum-value message. -/
theorem c7_invalid_status (c a : Option String) (v : Option String)
    (h1 : v ≠ some "pending") (h2 : v ≠ some "paid") :
    ∃ fe, invoiceSafeParse c a v = .err fe ∧ fe.status ≠ [] ∧
      (v = none → fe.status = [msgStatus]) ∧
      ∀ s, v = some s → fe.status = [msgEnum s] := by
  have hs : ∃ l, parseStatus v = .error l ∧ l ≠ [] ∧
      (v = none → l = [msgStatus]) ∧ ∀ s, v = some s → l = [msgEnum s] := by
    cases v with
    | none =>
        exact ⟨[msgStatus], rfl, by decide, fun _ => rfl,
          fun s hs => by cases hs⟩
    | some s =>
        have hs1 : s ≠ "pending" := fun h => h1 (by rw [h])
        have hs2 : s ≠ "paid" := fun h => h2 (by rw [h])
        refine ⟨[msgEnum s], ?_, by simp, by simp, ?_⟩
        · unfold parseStatus
          simp [hs1, hs2]
        · intro t ht
          cases ht
          rfl
  obtain ⟨l, hsv, hl, hnone, hsome⟩ := hs
  exact ⟨_, invoiceSafeParse_err_of_status c a v l hsv, hl, hnone, hsome⟩

/-- C7 witness: the amended statement at the concrete status `"shipped"`
with valid customer and amount. -/
theorem c7_invalid_status_witness :
    ∃ fe, invoiceSafeParse (some "c") (some "5") (some "shipped") =
        .err fe ∧ fe.status ≠ [] ∧
      (some "shipped" = none → fe.status = [msgStatus]) ∧
      ∀ s, some "shipped" = some s → fe.status = [msgEnum s] :=
  c7_invalid_status (some "c") (some "5") (some "shipped")
    (by decide) (by decide)

/-- Concrete coercion: `Number("12.345")` is the exact rational 2469/200. -/
theorem jsNumber_12345 : jsNumber (some "12.345") = .num (2469 / 200) := by
  simp [jsNumber, jsStringToNum, trimWs, jsUnsignedVal, digitsVal,
    List.dropWhile, List.splitOn, List.splitOnP, List.splitOnP.go]
  norm_num

/-- Concrete validation: the schema accepts the form
(`"c"`, `"12.345"`, `"pending"`). -/
theorem parse_12345 :
    invoiceSafeParse (some "c") (some "12.345") (some "pending") =
      .ok ⟨"c", 2469 / 200, .pending⟩ := by
  have h0 : (0 : ℚ) < 2469 / 200 := by norm_num
  have ha : parseAmount (some "12.345") = .ok (2469 / 200) := by
    simp [parseAmount, jsNumber_12345, h0]
  unfold invoiceSafeParse
  rw [ha]
  rfl

/-- C1 (counterexample): `createInvoice` performs no rounding — at input
amount `"12.345"` (the rational 2469/200) the inserted row holds
2469/200 × 100 = 1234.5, while `round(amount × 100)` is 1235. -/
theorem c1_counterexample :
    jsNumber (some "12.345") = .num (2469 / 200) ∧
    (createInvoice st0 (mkForm (some "c") (some "12.345") (some "pending"))
        true [] "2024-01-01" "inv1").2.1 =
      [⟨"inv1", "c", 2469 / 2, .pending, "2024-01-01"⟩] ∧
    jsRound ((2469 / 200 : ℚ) * 100) = 1235 ∧
    (2469 / 2 : ℚ) ≠ 1235 := by
  have hp : invoiceSafeParse
      ((mkForm (some "c") (some "12.345") (some "pending")).get "customerId")
      ((mkForm (some "c") (some "12.345") (some "pending")).get "amount")
      ((mkForm (some "c") (some "12.345") (some "pending")).get "status") =
      .ok ⟨"c", 2469 / 200, .pending⟩ := parse_12345
  refine ⟨jsNumber_12345, ?_, by norm_num [jsRound], by norm_num⟩
  simp [createInvoice, hp]
  norm_num

/-- C1 (amended): for every validated form, `updateInvoice` computes the
stored amount as `Math.round(amount × 100)` — so 12.34 (617/50) gives 1234
and 12.345 (2469/200) gives 1235 — while `createInvoice` computes
`amount × 100` with no rounding, so an input amount of 12.345 is stored as
1234.5 there. -/
theorem c1_amount_in_cents (f : FormData) (stp : ActionState) (db : Db)
    (today newId id : String) (d : InvoiceData)
    (h : invoiceSafeParse (f.get "customerId") (f.get "amount")
        (f.get "status") = .ok d) :
    (createInvoice stp f true db today newId).2.1 =
      db ++ [⟨newId, d.customerId, d.amount * 100, d.status, today⟩] ∧
    (updateInvoice id stp f true db).2.1 =
      db.map (fun r =>
        if r.id = id then
          { r with customer_id := d.customerId,
                   amount := (jsRound (d.amount * 100) : ℚ),
                   status := d.status }
        else r) ∧
    jsRound ((617 / 50 : ℚ) * 100) = 1234 ∧
    jsRound ((2469 / 200 : ℚ) * 100) = 1235 ∧
    (2469 / 200 : ℚ) * 100 = 2469 / 2 := by
  refine ⟨?_, ?_, by norm_num [jsRound], by norm_num [jsRound],
    by norm_num⟩ <;> simp [createInvoice, updateInvoice, h]

/-- C1 witness: the amended statement at the concrete form with amount
`"12.345"`, over a database holding one matching row: the create path
appends the unrounded 1234.5, the update path stores the rounded 1235 and
keeps the row's date. -/
theorem c1_amount_in_cents_witness :
    (createInvoice st0 (mkForm (some "c") (some "12.345") (some "pending"))
        true [⟨"inv1", "old", 1, .paid, "2020-01-01"⟩] "2024-01-01"
        "inv2").2.1 =
      [⟨"inv1", "old", 1, .paid, "2020-01-01"⟩,
       ⟨"inv2", "c", 2469 / 2, .pending, "2024-01-01"⟩] ∧
    (updateInvoice "inv1" st0
        (mkForm (some "c") (some "12.345") (some "pending")) true
        [⟨"inv1", "old", 1, .paid, "2020-01-01"⟩]).2.1 =
      [⟨"inv1", "c", 1235, .pending, "2020-01-01"⟩] ∧
    jsRound ((617 / 50 : ℚ) * 100) = 1234 ∧
    jsRound ((2469 / 200 : ℚ) * 100) = 1235 ∧
    (2469 / 200 : ℚ) * 100 = 2469 / 2 := by
  have h := c1_amount_in_cents
    (mkForm (some "c") (some "12.345") (some "pending")) st0
    [⟨"inv1", "old", 1, .paid, "2020-01-01"⟩] "2024-01-01" "inv2" "inv1"
    ⟨"c", 2469 / 200, .pending⟩ parse_12345
  refine ⟨?_, ?_, h.2.2.1, h.2.2.2.1, h.2.2.2.2⟩
  · rw [h.1]
    norm_num
  · rw [h.2.1]
    norm_num [jsRound]

/-- C5: when validation and the storage write succeed, both handlers
perform exactly the write, then the revalidation of the invoices listing
path, then the redirect to it — the revalidation strictly precedes the
redirect, which ends the handler unconditionally; when the write fails no
redirect effect occurs at all. -/
theorem c5_revalidate_then_redirect (f : FormData) (stp : ActionState)
    (db : Db) (today newId id : String) (d : InvoiceData)
    (h : invoiceSafeParse (f.get "customerId") (f.get "amount")
        (f.get "status") = .ok d) :
    ((createInvoice stp f true db today newId).2.2 =
        [.dbWrite, .revalidate invoicesPath, .redirectTo invoicesPath] ∧
      (createInvoice stp f true db today newId).1 =
        .redirected invoicesPath) ∧
    ((updateInvoice id stp f true db).2.2 =
        [.dbWrite, .revalidate invoicesPath, .redirectTo invoicesPath] ∧
      (updateInvoice id stp f true db).1 = .redirected invoicesPath) ∧
    (∀ p, Effect.redirectTo p ∉
      (createInvoice stp f false db today newId).2.2) ∧
    (∀ p, Effect.redirectTo p ∉ (updateInvoice id stp f false db).2.2) := by
  refine ⟨⟨?_, ?_⟩, ⟨?_, ?_⟩, ?_, ?_⟩ <;>
    simp [createInvoice, updateInvoice, h]

/-- C5 witness: the effect order at a concrete valid form, for both the
successful and the failing storage write. -/
theorem c5_revalidate_then_redirect_witness :
    ((createInvoice st0 (mkForm (some "c") (some "5") (some "pending"))
        true [] "2024-01-01" "inv1").2.2 =
        [.dbWrite, .revalidate invoicesPath, .redirectTo invoicesPath] ∧
      (createInvoice st0 (mkForm (some "c") (some "5") (some "pending"))
        true [] "2024-01-01" "inv1").1 = .redirected invoicesPath) ∧
    (((updateInvoice "inv1" st0
        (mkForm (some "c") (some "5") (some "pending")) true []).2.2 =
        [.dbWrite, .revalidate invoicesPath, .redirectTo invoicesPath]) ∧
      (updateInvoice "inv1" st0
        (mkForm (some "c") (some "5") (some "pending")) true []).1 =
        .redirected invoicesPath) ∧
    (∀ p, Effect.redirectTo p ∉
      (createInvoice st0 (mkForm (some "c") (some "5") (some "pending"))
        false [] "2024-01-01" "inv1").2.2) ∧
    (∀ p, Effect.redirectTo p ∉
      (updateInvoice "inv1" st0
        (mkForm (some "c") (some "5") (some "pending")) false []).2.2) :=
  c5_revalidate_then_redirect
    (mkForm (some "c") (some "5") (some "pending")) st0 [] "2024-01-01"
    "inv1" "inv1" ⟨"c", 5, .pending⟩ rfl

/-- C8: a successful `updateInvoice` changes only the customer_id, amount
and status of the rows matching the id: the row count is preserved, and at
every position the new row keeps the old row's id and date; a row whose id
differs from the target is left entirely unchanged. -/
theorem c8_update_frame (id : String) (stp : ActionState) (f : FormData)
    (db : Db) (d : InvoiceData)
    (h : invoiceSafeParse (f.get "customerId") (f.get "amount")
        (f.get "status") = .ok d) :
    ((updateInvoice id stp f true db).2.1).length = db.length ∧
    ∀ (i : ℕ) (r : Invoice), db[i]? = some r →
      ∃ r2, ((updateInvoice id stp f true db).2.1)[i]? = some r2 ∧
        r2.id = r.id ∧ r2.date = r.date ∧ (r.id ≠ id → r2 = r) := by
  have hdb : (updateInvoice id stp f true db).2.1 =
      db.map (fun r =>
        if r.id = id then
          { r with customer_id := d.customerId,
                   amount := (jsRound (d.amount * 100) : ℚ),
                   status := d.status }
        else r) := by
    simp [updateInvoice, h]
  constructor
  · rw [hdb]
    simp
  · intro i r hr
    rw [hdb, List.getElem?_map, hr]
    refine ⟨_, rfl, ?_, ?_, ?_⟩
    · by_cases hid : r.id = id <;> simp [hid]
    · by_cases hid : r.id = id <;> simp [hid]
    · intro hne
      simp [hne]

/-- C8 witness: over a two-row database, updating the row with id `"a"`
preserves the row count, keeps that row's id and date, and leaves the row
with id `"b"` untouched. -/
theorem c8_update_frame_witness :
    ((updateInvoice "a" st0 (mkForm (some "c") (some "5") (some "pending"))
        true [⟨"a", "c0", 1, .pending, "2020-01-01"⟩,
              ⟨"b", "c1", 2, .paid, "2021-01-01"⟩]).2.1).length =
      ([⟨"a", "c0", 1, .pending, "2020-01-01"⟩,
        ⟨"b", "c1", 2, .paid, "2021-01-01"⟩] : Db).length ∧
    (∃ r2, ((updateInvoice "a" st0
        (mkForm (some "c") (some "5") (some "pending"))
        true [⟨"a", "c0", 1, .pending, "2020-01-01"⟩,
              ⟨"b", "c1", 2, .paid, "2021-01-01"⟩]).2.1)[0]? = some r2 ∧
      r2.id = "a" ∧ r2.date = "2020-01-01" ∧
      ("a" ≠ "a" → r2 = ⟨"a", "c0", 1, .pending, "2020-01-01"⟩)) ∧
    (∃ r2, ((updateInvoice "a" st0
        (mkForm (some "c") (some "5") (some "pending"))
        true [⟨"a", "c0", 1, .pending, "2020-01-01"⟩,
              ⟨"b", "c1", 2, .paid, "2021-01-01"⟩]).2.1)[1]? = some r2 ∧
      r2.id = "b" ∧ r2.date = "2021-01-01" ∧
      ("b" ≠ "a" → r2 = ⟨"b", "c1", 2, .paid, "2021-01-01"⟩)) := by
  have h := c8_update_frame "a" st0
    (mkForm (some "c") (some "5") (some "pending"))
    [⟨"a", "c0", 1, .pending, "2020-01-01"⟩,
     ⟨"b", "c1", 2, .paid, "2021-01-01"⟩] ⟨"c", 5, .pending⟩ rfl
  exact ⟨h.1, h.2 0 ⟨"a", "c0", 1, .pending, "2020-01-01"⟩ rfl,
    h.2 1 ⟨"b", "c1", 2, .paid, "2021-01-01"⟩ rfl⟩
